import Mathlib

/-!
Shallow embedding of `src/scraper.py` (a SerpAPI Google Maps scraper) and
proofs of the specification claims about it.

The scraper has four components, each embedded below:
  * `extract_email_from_website` — fetches a business homepage and scans it
    with the Python regex `\b[A-Za-z0-9._%+-]+@[A-Za-z0-9.-]+\.[A-Za-z]{2,}\b`
    (via `re.findall`), filters the matches against a blacklist of substrings,
    and returns the first survivor;
  * `fetch_with_retries` — a bounded retry loop (default 3 attempts) with
    exponential backoff, returning `None` when no attempt gets HTTP 200;
  * `scrape_maps_data` — a page walk bounded by `max_pages = 3` that maps
    upstream entries to output records and follows continuation URLs;
  * `save_to_csv` — writes a fixed five-column header plus one row per record,
    or does nothing for an empty list.

External effects (HTTP responses, exceptions from `requests`, success of the
page-dump file write) are supplied as explicit oracles; `time.sleep` and
logging do not influence any returned value and are recorded as events only
where a claim mentions them.
-/

/-! ### Character classes of the email regex

The pattern is `\b[A-Za-z0-9._%+-]+@[A-Za-z0-9.-]+\.[A-Za-z]{2,}\b`.
Character classes in the pattern are explicit ASCII ranges; `\b` is a word
boundary (word characters: letters, digits, underscore). -/

def isLocalChar (c : Char) : Bool :=
  c.isAlphanum || c == '.' || c == '_' || c == '%' || c == '+' || c == '-'

def isDomainChar (c : Char) : Bool :=
  c.isAlphanum || c == '.' || c == '-'

def isWordChar (c : Char) : Bool :=
  c.isAlphanum || c == '_'

def isWordOpt : Option Char → Bool
  | none => false
  | some c => isWordChar c

/-- `\b` between a preceding character (`none` at the start of the text) and
the next character: exactly one side is a word character. -/
def wordBoundary (prev : Option Char) (c : Char) : Bool :=
  isWordOpt prev != isWordChar c

/-! ### Backtracking match of the domain part

After the literal `@`, the regex engine takes the maximal run `dom` of
`[A-Za-z0-9.-]` characters and then backtracks `[A-Za-z0-9.-]+\.[A-Za-z]{2,}\b`
inside it: it tries the split positions `i` with `dom[i] = '.'` from right to
left, takes the maximal letter run after the dot (letters are domain
characters, so the run stays inside `dom`), and succeeds when that run has
length ≥ 2 and the following character (the next character of `dom`, or the
first character after the run `dom` when the letters reach its end) is not a
word character.  Shortening the letter run can never help: the character after
a shortened run is a letter, hence a word character, so `\b` still fails. -/

def domainMatch (dom : List Char) (nextc : Option Char) :
    Nat → Option (List Char × List Char)
  | 0 => none
  | i + 1 =>
    let cand : Option (List Char × List Char) :=
      if dom.getD (i + 1) ' ' == '.' then
        let tail := dom.drop (i + 2)
        let letters := tail.takeWhile Char.isAlpha
        let restAfter := tail.drop letters.length
        let after : Option Char :=
          match restAfter.head? with
          | some c => some c
          | none => nextc
        if decide (2 ≤ letters.length) && !(isWordOpt after) then
          some (dom.take (i + 1) ++ '.' :: letters, restAfter)
        else none
      else none
    match cand with
    | some r => some r
    | none => domainMatch dom nextc i

/-- Try to match the email regex at the start of `cs`; `prev` is the character
immediately before `cs` inside the whole text (`none` at position 0).  Returns
the matched characters and the remainder of the text after the match.

The local part never backtracks: `[A-Za-z0-9._%+-]+` takes the maximal run and
the next character must then be `@` (a shorter run would require `@` at a
position holding a local character, which `@` is not). -/
def matchEmailAt (prev : Option Char) (cs : List Char) :
    Option (List Char × List Char) :=
  match cs with
  | [] => none
  | c :: _ =>
    if wordBoundary prev c then
      let loc := cs.takeWhile isLocalChar
      if loc.isEmpty then none
      else
        match cs.drop loc.length with
        | '@' :: rest2 =>
          let dom := rest2.takeWhile isDomainChar
          let rest3 := rest2.drop dom.length
          if dom.isEmpty then none
          else
            match domainMatch dom rest3.head? (dom.length - 1) with
            | some (m, remInDom) => some (loc ++ '@' :: m, remInDom ++ rest3)
            | none => none
        | _ => none
    else none

/-- `re.findall` for the email pattern: scan left to right, restart one
character later after a failed position, continue right after the end of a
successful (non-overlapping) match.  Every match consumes at least one
character, so `fuel = length + 1` never runs out. -/
def findallAux : Nat → Option Char → List Char → List String
  | 0, _, _ => []
  | _ + 1, _, [] => []
  | fuel + 1, prev, c :: cs =>
    match matchEmailAt prev (c :: cs) with
    | some (m, rest) => String.mk m :: findallAux fuel m.getLast? rest
    | none => findallAux fuel (some c) cs

def findallEmails (body : String) : List String :=
  findallAux (body.data.length + 1) none body.data

/-! ### Blacklist filtering and the extraction function -/

def blacklist : List String :=
  ["noreply", "no-reply", "example.com", "test.com",
   ".png", ".jpg", ".jpeg", ".gif", ".svg",
   "godaddy.com", "afterpay", "logo", "website.com"]

def isPrefixL : List Char → List Char → Bool
  | [], _ => true
  | _ :: _, [] => false
  | a :: as, b :: bs => a == b && isPrefixL as bs

def containsL (needle : List Char) : List Char → Bool
  | [] => needle.isEmpty
  | c :: rest => isPrefixL needle (c :: rest) || containsL needle rest

/-- `bad in e.lower()` for one blacklist entry (entries are lowercase). -/
def isBlacklisted (e : String) : Bool :=
  blacklist.any fun bad => containsL bad.data (e.data.map Char.toLower)

/-- The body of `extract_email_from_website` once a 200 response is in hand:
`emails = re.findall(...)`; if non-empty, filter by the blacklist and return
the first survivor; otherwise fall through to `return None`. -/
def extractFrom200Body (body : String) : Option String :=
  let emails := findallEmails body
  if emails.isEmpty then none
  else (emails.filter fun e => !isBlacklisted e).head?

/-- Outcome of `requests.get` on a website: a response with a status code and
a body, or a raised `requests.RequestException`. -/
inductive WebResp where
  | ok (status : Nat) (body : String)
  | netError
deriving DecidableEq

/-- `extract_email_from_website`: `None` for an empty (falsy) URL; otherwise
fetch the homepage (`web` is the network oracle), return `None` on a raised
`RequestException` or a non-200 status, and scan the body on 200. -/
def extract_email_from_website (web : String → WebResp) (url : String) :
    Option String :=
  if url = "" then none
  else
    match web url with
    | .netError => none
    | .ok status body => if status = 200 then extractFrom200Body body else none

/-- Spec-side description of the 200-path of the extractor: the first match in
document order that contains no rejection-list substring, or nothing if none
survive.  `extractFrom200Body` is compared against this for claim C3. -/
def firstSurvivingMatch (body : String) : Option String :=
  ((findallEmails body).filter fun e => !isBlacklisted e).head?

/-! ### `fetch_with_retries` (src/scraper.py lines 95–135)

The loop body is `for attempt in range(max_retries)`: one `requests.get` per
iteration; on 200 return the parsed body; on 429 `time.sleep(delay * 2)`; any
other status or a `RequestException` just falls through; then, unless this was
the last iteration, `time.sleep(delay)` and `delay *= 2`.  After the loop,
return `None`.  The HTTP world is an oracle from the attempt index to what
that attempt observes; requests and sleeps are recorded as an event trace. -/

/-- What one attempt's `requests.get` yields: a response with a status code
and a parsed body, or a raised `RequestException`. -/
inductive HttpAttempt (α : Type) where
  | resp (code : Nat) (body : α)
  | exn
deriving DecidableEq

/-- Observable events of the retry loop: an HTTP request (with the status it
got back, `none` when the request raised) or a `time.sleep` of a duration. -/
inductive FetchEv where
  | request (code : Option Nat)
  | wait (d : Nat)
deriving DecidableEq

def isRequestEv : FetchEv → Bool
  | .request _ => true
  | .wait _ => false

def countRequests (evs : List FetchEv) : Nat :=
  evs.countP fun e => isRequestEv e

/-- `resp` yields HTTP 200. -/
def is200 {α : Type} : HttpAttempt α → Bool
  | .resp code _ => code == 200
  | .exn => false

/-- One iteration of the `for attempt in range(max_retries)` body up to the
shared retry tail: the `try` block issues the request; on status 200 the
parsed body is returned (`some`), on 429 an extra `time.sleep(delay * 2)` is
performed, any other status and a raised `RequestException` just log.  The
result is the early-return value (if any) paired with the events of this
iteration. -/
def attemptOutcome {α : Type} (r : HttpAttempt α) (delay : Nat) :
    Option α × List FetchEv :=
  match r with
  | .resp code body =>
    if code = 200 then (some body, [.request (some code)])
    else if code = 429 then (none, [.request (some code), .wait (delay * 2)])
    else (none, [.request (some code)])
  | .exn => (none, [.request none])

/-- The retry loop, structured on the number of remaining iterations
(`max_retries - attempt`).  `delay` starts at 1; unless the iteration was the
last one, the tail sleeps `delay` and doubles it (`delay *= 2`). -/
def fetchGo {α : Type} (hresp : Nat → HttpAttempt α) :
    Nat → Nat → Nat → Option α × List FetchEv
  | 0, _, _ => (none, [])
  | remaining + 1, attempt, delay =>
    let o := attemptOutcome (hresp attempt) delay
    match o.1 with
    | some body => (some body, o.2)
    | none =>
      if remaining = 0 then (none, o.2)
      else
        let cont := fetchGo hresp remaining (attempt + 1) (delay * 2)
        (cont.1, o.2 ++ .wait delay :: cont.2)

/-- The default `max_retries` of `fetch_with_retries`. -/
def defaultMaxRetries : Nat := 3

/-- `fetch_with_retries(url, params, max_retries)`: returns the parsed 200
body or `None`, together with the request/sleep event trace. -/
def fetch_with_retries {α : Type} (hresp : Nat → HttpAttempt α)
    (max_retries : Nat) : Option α × List FetchEv :=
  fetchGo hresp max_retries 0 1

/-- Total sleep time between each pair of consecutive requests in a trace
(ignoring any sleeps after the last request): the waits inserted before the
second, third, ... request. -/
def gapTotalsAux : List FetchEv → Nat → List Nat
  | [], _ => []
  | .wait d :: rest, acc => gapTotalsAux rest (acc + d)
  | .request _ :: rest, acc => acc :: gapTotalsAux rest 0

def gapTotals : List FetchEv → List Nat
  | [] => []
  | .wait _ :: rest => gapTotals rest
  | .request _ :: rest => gapTotalsAux rest 0

/-! ### `scrape_maps_data` (src/scraper.py lines 138–249)

One upstream entry (`place`) with the fields the loop reads via `.get`:
a missing key is `none`.  Python truthiness of a string field: `None` and
`""` are falsy. -/

structure Entry where
  title : Option String
  name : Option String
  phone : Option String
  website : Option String
  address : Option String
deriving DecidableEq

/-- One parsed API payload, with the three parts the walk reads:
`"error" in results` (key presence), `results.get("local_results", [])`, and
`results.get("serpapi_pagination", {}).get("next")`. -/
structure Payload where
  error : Option String
  local_results : List Entry
  next : Option String
deriving DecidableEq

/-- One output row, the dict appended to `businesses` (keys `Business Name`,
`Phone Number`, `Email Address`, `Website`, `Address`). -/
structure BusinessRecord where
  businessName : String
  phoneNumber : String
  emailAddress : String
  website : String
  address : String
deriving DecidableEq

/-- Python truthiness of an optional string: `None` and `""` are falsy. -/
def truthy (o : Option String) : Bool :=
  o.getD "" != ""

/-- Python `a or b` on two optional strings. -/
def pyOrStr (a b : Option String) : Option String :=
  if truthy a then a else b

/-- The body of the `for place in local_results` loop: build one record.
`business_name = place.get("title") or place.get("name")`; email extraction
runs only under `if website:`; every field is materialized with `x or ""`. -/
def processEntry (web : String → WebResp) (place : Entry) : BusinessRecord :=
  let business_name := pyOrStr place.title place.name
  let email : Option String :=
    if truthy place.website then
      extract_email_from_website web (place.website.getD "")
    else none
  { businessName := business_name.getD ""
    phoneNumber := place.phone.getD ""
    emailAddress := email.getD ""
    website := place.website.getD ""
    address := place.address.getD "" }

/-- The `while page_count < max_pages` loop, structured on the number of
remaining iterations (`max_pages - page_count`).  The oracles are explicit:
`fetchO` is the composed `fetch_with_retries(url, params)` seen by the walk
(`none` covers both a fetch failure and a falsy payload such as `{}`), keyed
by the call number and the current `url`/`params`; `web` answers website
fetches; `dumpOk` tells whether writing `google_maps_result_page_{n+1}.json`
succeeds — the source performs the dump with no `try`, so a failing write
raises and the raised exception is the `Except.error` outcome (the
accumulated list is lost to the caller).  The second component counts loop
iterations, i.e. upstream fetches. -/
def walkGo (fetchO : Nat → String → List (String × String) → Option Payload)
    (web : String → WebResp) (dumpOk : Nat → Bool) :
    Nat → Nat → String → List (String × String) → List BusinessRecord →
      Except Unit (List BusinessRecord) × Nat
  | 0, _, _, _, acc => (.ok acc, 0)
  | remaining + 1, pageCount, url, params, acc =>
    match fetchO pageCount url params with
    | none => (.ok acc, 1)
    | some results =>
      if dumpOk pageCount = false then (.error (), 1)
      else if results.error.isSome then (.ok acc, 1)
      else if results.local_results.isEmpty then (.ok acc, 1)
      else
        let acc2 := acc ++ results.local_results.map (processEntry web)
        if truthy results.next then
          let cont :=
            walkGo fetchO web dumpOk remaining (pageCount + 1)
              (results.next.getD "") [] acc2
          (cont.1, cont.2 + 1)
        else (.ok acc2, 1)

/-- The page cap (`max_pages = 3`). -/
def max_pages : Nat := 3

/-- The initial query parameters of the walk (the `api_key` comes from the
config loader, passed in here explicitly). -/
def initialParams (apiKey : String) : List (String × String) :=
  [("engine", "google_maps"),
   ("q", "suspension North Lakes, Queensland, 4509, Australia"),
   ("type", "search"),
   ("hl", "en"),
   ("api_key", apiKey)]

/-- `scrape_maps_data()`: run the walk from the search endpoint with
`page_count = 0`, an empty accumulator, and the page cap `max_pages`. -/
def scrape_maps_data (apiKey : String)
    (fetchO : Nat → String → List (String × String) → Option Payload)
    (web : String → WebResp) (dumpOk : Nat → Bool) :
    Except Unit (List BusinessRecord) × Nat :=
  walkGo fetchO web dumpOk max_pages 0 "https://serpapi.com/search.json"
    (initialParams apiKey) []

/-! ### `save_to_csv` (src/scraper.py lines 252–293)

The file contents are modeled as the list of written rows; `none` means no
file was created.  `DictWriter.writeheader` writes the fixed `keys` row and
`writerows` one row per record in list order. -/

def csvHeader : List String :=
  ["Business Name", "Phone Number", "Email Address", "Website", "Address"]

def csvRow (b : BusinessRecord) : List String :=
  [b.businessName, b.phoneNumber, b.emailAddress, b.website, b.address]

/-- `save_to_csv(data)`: `if not data: return` without creating the file;
otherwise the header row followed by one row per record. -/
def save_to_csv (data : List BusinessRecord) : Option (List (List String)) :=
  if data.isEmpty then none
  else some (csvHeader :: data.map csvRow)

/-! ### Concrete oracles used to evaluate the theorems -/

/-- An upstream that answers every attempt with HTTP 500. -/
def respAll500 : Nat → HttpAttempt Unit := fun _ => .resp 500 ()

/-- Two HTTP 429 answers followed by an HTTP 200 (the backoff scenario). -/
def resp429twice : Nat → HttpAttempt Unit :=
  fun n => if n < 2 then .resp 429 () else .resp 200 ()

/-- An upstream entry with title, phone and address but no website. -/
def exEntry : Entry :=
  ⟨some "Acme Suspension", none, some "07 5555 5555", none, some "1 Main St"⟩

/-- An upstream entry with no phone and no website. -/
def exEntryNoContact : Entry := ⟨some "Bare Pty Ltd", none, none, none, none⟩

/-- A payload with one entry that always advertises a next page. -/
def exPayload : Payload :=
  ⟨none, [exEntry], some "https://serpapi.com/search.json?start=20"⟩

/-- A fetch oracle that returns `exPayload` forever: an unbounded chain of
continuation cursors. -/
def infFetch : Nat → String → List (String × String) → Option Payload :=
  fun _ _ _ => some exPayload

/-- A website oracle on which every request raises. -/
def webNetErr : String → WebResp := fun _ => .netError

/-- A website oracle: one URL raises, every other gets a 404. -/
def webFail : String → WebResp :=
  fun u => if u = "https://down.example" then .netError else .ok 404 "not found"

/-- A website oracle that always serves the three-email contact page. -/
def okWeb : String → WebResp :=
  fun _ =>
    .ok 200 "contact: sales@acme.com, logo@godaddy.com, noreply@acme.com"

/-- Every page-dump file write succeeds. -/
def dumpAll : Nat → Bool := fun _ => true

/-- Every page-dump file write raises (e.g. the directory is not writable). -/
def dumpFail : Nat → Bool := fun _ => false

/-- The record produced from `exEntry`. -/
def exRecord : BusinessRecord :=
  ⟨"Acme Suspension", "07 5555 5555", "", "", "1 Main St"⟩

/-! ### Helper lemmas -/

theorem countRequests_attemptOutcome {α : Type} (r : HttpAttempt α)
    (delay : Nat) : countRequests (attemptOutcome r delay).2 = 1 := by
  cases r with
  | resp code body =>
    by_cases h200 : code = 200 <;> by_cases h429 : code = 429 <;>
      simp [attemptOutcome, countRequests, isRequestEv, h200, h429]
  | exn => simp [attemptOutcome, countRequests, isRequestEv]

theorem attemptOutcome_fst_eq_none {α : Type} (r : HttpAttempt α)
    (delay : Nat) (h : is200 r = false) : (attemptOutcome r delay).1 = none := by
  cases r with
  | resp code body =>
    have h200 : code ≠ 200 := by
      intro hc
      subst hc
      simp [is200] at h
    by_cases h429 : code = 429 <;> simp [attemptOutcome, h200, h429]
  | exn => simp [attemptOutcome]

theorem attemptOutcome_200 {α : Type} (r : HttpAttempt α) (delay : Nat)
    (h : is200 r = true) :
    ∃ body, r = .resp 200 body ∧ attemptOutcome r delay =
      (some body, [.request (some 200)]) := by
  cases r with
  | resp code body =>
    have h200 : code = 200 := by simpa [is200] using h
    subst h200
    exact ⟨body, rfl, by simp [attemptOutcome]⟩
  | exn => simp [is200] at h

theorem countRequests_append (a b : List FetchEv) :
    countRequests (a ++ b) = countRequests a + countRequests b := by
  simp [countRequests, List.countP_append]

theorem countRequests_cons_wait (d : Nat) (l : List FetchEv) :
    countRequests (.wait d :: l) = countRequests l := by
  simp [countRequests, List.countP_cons, isRequestEv]

/-- The retry loop issues at most `remaining` requests. -/
theorem fetchGo_requests_le {α : Type} (hresp : Nat → HttpAttempt α) :
    ∀ remaining attempt delay,
      countRequests (fetchGo hresp remaining attempt delay).2 ≤ remaining := by
  intro remaining
  induction remaining with
  | zero => intro attempt delay; simp [fetchGo, countRequests]
  | succ r ih =>
    intro attempt delay
    rw [fetchGo]
    cases ho : (attemptOutcome (hresp attempt) delay).1 with
    | some body =>
      simp only [ho]
      show countRequests (attemptOutcome (hresp attempt) delay).2 ≤ r + 1
      rw [countRequests_attemptOutcome]
      omega
    | none =>
      simp only [ho]
      split
      · show countRequests (attemptOutcome (hresp attempt) delay).2 ≤ r + 1
        rw [countRequests_attemptOutcome]
        omega
      · show countRequests ((attemptOutcome (hresp attempt) delay).2 ++
          .wait delay :: (fetchGo hresp r (attempt + 1) (delay * 2)).2) ≤ r + 1
        rw [countRequests_append, countRequests_attemptOutcome,
          countRequests_cons_wait]
        have h2 := ih (attempt + 1) (delay * 2)
        omega

/-- If no attempt in the window `[attempt, attempt + remaining)` yields a 200,
the retry loop returns `None`. -/
theorem fetchGo_none_of_no200 {α : Type} (hresp : Nat → HttpAttempt α) :
    ∀ remaining attempt delay,
      (∀ i, attempt ≤ i → i < attempt + remaining → is200 (hresp i) = false) →
      (fetchGo hresp remaining attempt delay).1 = none := by
  intro remaining
  induction remaining with
  | zero => intro attempt delay _; simp [fetchGo]
  | succ r ih =>
    intro attempt delay hno
    rw [fetchGo]
    have hcur : is200 (hresp attempt) = false := by
      apply hno attempt (Nat.le_refl _)
      omega
    have ho := attemptOutcome_fst_eq_none (hresp attempt) delay hcur
    cases hov : (attemptOutcome (hresp attempt) delay).1 with
    | some body => rw [hov] at ho; exact absurd ho (by simp)
    | none =>
      simp only [hov]
      by_cases hr : r = 0
      · subst hr; simp
      · simp only [if_neg hr]
        exact ih (attempt + 1) (delay * 2) fun i h1 h2 => by
          apply hno i
          · omega
          · omega

/-- The walk performs at most `remaining` iterations (upstream fetches). -/
theorem walkGo_pages_le
    (fetchO : Nat → String → List (String × String) → Option Payload)
    (web : String → WebResp) (dumpOk : Nat → Bool) :
    ∀ remaining pageCount url params acc,
      (walkGo fetchO web dumpOk remaining pageCount url params acc).2 ≤
        remaining := by
  intro remaining
  induction remaining with
  | zero => intro pc url params acc; simp [walkGo]
  | succ r ih =>
    intro pc url params acc
    rw [walkGo]
    cases hf : fetchO pc url params with
    | none => simp
    | some results =>
      simp only
      split
      · omega
      · split
        · omega
        · split
          · omega
          · split
            · show (walkGo fetchO web dumpOk r (pc + 1)
                  (results.next.getD "") []
                  (acc ++ results.local_results.map (processEntry web))).2 + 1 ≤
                r + 1
              have := ih (pc + 1) (results.next.getD "") []
                (acc ++ results.local_results.map (processEntry web))
              omega
            · omega

/-- An entry whose record carries an empty website field carries an empty
email field: email extraction runs only under `if website:`. -/
theorem processEntry_email_empty (web : String → WebResp) (place : Entry)
    (h : (processEntry web place).website = "") :
    (processEntry web place).emailAddress = "" := by
  by_cases hw : truthy place.website = true
  · exfalso
    have hne : place.website.getD "" ≠ "" := by
      simpa [truthy, bne_iff_ne] using hw
    exact hne (by simpa [processEntry] using h)
  · simp [processEntry, hw]

/-- Every record in a normally returned walk output either was in the
accumulator already or is `processEntry` of some upstream entry. -/
theorem walkGo_ok_mem
    (fetchO : Nat → String → List (String × String) → Option Payload)
    (web : String → WebResp) (dumpOk : Nat → Bool)
    (P : BusinessRecord → Prop)
    (hP : ∀ place, P (processEntry web place)) :
    ∀ remaining pageCount url params acc,
      (∀ r ∈ acc, P r) →
      ∀ recs,
        (walkGo fetchO web dumpOk remaining pageCount url params acc).1 =
          .ok recs →
        ∀ r ∈ recs, P r := by
  intro remaining
  induction remaining with
  | zero =>
    intro pc url params acc hacc recs hok
    simp only [walkGo] at hok
    cases hok
    exact hacc
  | succ n ih =>
    intro pc url params acc hacc recs hok
    rw [walkGo] at hok
    cases hf : fetchO pc url params with
    | none =>
      rw [hf] at hok
      simp only at hok
      cases hok
      exact hacc
    | some results =>
      rw [hf] at hok
      simp only at hok
      have haccP : ∀ r ∈ acc ++ results.local_results.map (processEntry web),
          P r := by
        intro r hr
        rcases List.mem_append.mp hr with h | h
        · exact hacc r h
        · rcases List.mem_map.mp h with ⟨place, _, rfl⟩
          exact hP place
      split at hok
      · cases hok
      · split at hok
        · cases hok
          exact hacc
        · split at hok
          · cases hok
            exact hacc
          · split at hok
            · exact ih (pc + 1) (results.next.getD "") [] _ haccP recs hok
            · cases hok
              exact haccP


/-! ### The claims -/

/-- C1: for every upstream behavior and attempt budget, `fetch_with_retries`
issues at most `max_retries` HTTP requests (the default budget is 3 attempts
total, counting the first), and when no attempt yields an HTTP 200 response
it returns the failure signal `None` instead of raising. -/
theorem C1_fetch_bounded_and_fails_closed {α : Type}
    (hresp : Nat → HttpAttempt α) (max_retries : Nat) :
    countRequests (fetch_with_retries hresp max_retries).2 ≤ max_retries ∧
    ((∀ i, i < max_retries → is200 (hresp i) = false) →
      (fetch_with_retries hresp max_retries).1 = none) := by
  constructor
  · exact fetchGo_requests_le hresp max_retries 0 1
  · intro h
    exact fetchGo_none_of_no200 hresp max_retries 0 1 fun i _ h2 =>
      h i (by omega)

/-- Witness for C1: against an upstream that answers 500 on every attempt,
the default budget of 3 issues at most 3 requests and returns `None`. -/
theorem C1_fetch_bounded_and_fails_closed_witness :
    countRequests (fetch_with_retries respAll500 3).2 ≤ 3 ∧
    (fetch_with_retries respAll500 3).1 = none :=
  ⟨(C1_fetch_bounded_and_fails_closed respAll500 3).1,
   (C1_fetch_bounded_and_fails_closed respAll500 3).2 fun _ _ => rfl⟩

/-- C2: for every upstream behavior the page walk in `scrape_maps_data`
performs at most `max_pages = 3` iterations; in particular, against an
upstream that advertises an unbounded chain of continuation cursors it
terminates after exactly 3 pages, returning the records accumulated so
far. -/
theorem C2_page_cap :
    (∀ apiKey fetchO web dumpOk,
      (scrape_maps_data apiKey fetchO web dumpOk).2 ≤ max_pages) ∧
    scrape_maps_data "key" infFetch webNetErr dumpAll =
      (.ok [exRecord, exRecord, exRecord], 3) := by
  constructor
  · intro apiKey fetchO web dumpOk
    exact walkGo_pages_le fetchO web dumpOk max_pages 0 _ _ []
  · rfl

/-- C3: on an HTTP 200 body, extraction returns the first match of the email
pattern, in document order, that contains no blacklist substring (or `None`
when none survive); on the three-email contact page it returns
`sales@acme.com` and never the other two addresses. -/
theorem C3_email_first_surviving :
    (∀ body, extractFrom200Body body = firstSurvivingMatch body) ∧
    extract_email_from_website okWeb "https://acme.example" =
      some "sales@acme.com" := by
  constructor
  · intro body
    cases h : findallEmails body with
    | nil => simp [extractFrom200Body, firstSurvivingMatch, h]
    | cons a l => simp [extractFrom200Body, firstSurvivingMatch, h]
  · decide

/-- Counterexample to C4: with the same upstream, the walk returns three
records when the page dumps succeed, but when writing the first page dump
fails the walk aborts with the raised exception (`Except.error`) after one
iteration instead of continuing — the dump is not best-effort in the code
(`with open(...)`/`json.dump` sit outside any `try`). -/
theorem C4_counterexample :
    (scrape_maps_data "key" infFetch webNetErr dumpFail).1 = .error () ∧
    (scrape_maps_data "key" infFetch webNetErr dumpAll).1 =
      .ok [exRecord, exRecord, exRecord] :=
  ⟨rfl, rfl⟩

/-- C4 (amended): the raw page payload is persisted unconditionally on every
successfully fetched page, and a failure to persist the dump file aborts the
page walk: the exception propagates and the walk returns no records. -/
theorem C4_dump_failure_aborts
    (fetchO : Nat → String → List (String × String) → Option Payload)
    (web : String → WebResp) (dumpOk : Nat → Bool)
    (remaining pageCount : Nat) (url : String)
    (params : List (String × String)) (acc : List BusinessRecord)
    (hfetch : (fetchO pageCount url params).isSome = true)
    (hdump : dumpOk pageCount = false) :
    walkGo fetchO web dumpOk (remaining + 1) pageCount url params acc =
      (.error (), 1) := by
  rw [walkGo]
  cases hf : fetchO pageCount url params with
  | none => rw [hf] at hfetch; simp at hfetch
  | some results => simp [hdump]

/-- Witness for the amended C4: a concrete walk whose first page fetch
succeeds and whose dump write fails aborts immediately. -/
theorem C4_dump_failure_aborts_witness :
    walkGo infFetch webNetErr dumpFail 3 0 "https://serpapi.com/search.json"
      (initialParams "key") [] = (.error (), 1) :=
  C4_dump_failure_aborts infFetch webNetErr dumpFail 2 0
    "https://serpapi.com/search.json" (initialParams "key") []
    (by decide) (by decide)

/-- C5: on two consecutive 429 responses followed by a 200, the fetcher
issues exactly three requests; the waits before the second and the third
request are strictly positive and strictly increasing (2+1 = 3 time units,
then 4+2 = 6). -/
theorem C5_backoff_timing :
    (fetch_with_retries resp429twice 3).2 =
      [.request (some 429), .wait 2, .wait 1,
       .request (some 429), .wait 4, .wait 2, .request (some 200)] ∧
    countRequests (fetch_with_retries resp429twice 3).2 = 3 ∧
    ∃ w₁ w₂, gapTotals (fetch_with_retries resp429twice 3).2 = [w₁, w₂] ∧
      0 < w₁ ∧ 0 < w₂ ∧ w₁ < w₂ :=
  ⟨rfl, rfl, 3, 6, rfl, by decide, by decide, by decide⟩

/-- C6: each upstream entry maps to a record whose name uses the
title-or-name fallback and whose phone, website and address pass through,
with any missing (`None`) or empty field becoming `""`; in particular an
entry with no phone yields `Phone Number = ""` and an entry with no website
yields `Email Address = ""`. -/
theorem C6_entry_mapping (web : String → WebResp) (place : Entry) :
    (processEntry web place).businessName =
      (pyOrStr place.title place.name).getD "" ∧
    (processEntry web place).phoneNumber = place.phone.getD "" ∧
    (processEntry web place).website = place.website.getD "" ∧
    (processEntry web place).address = place.address.getD "" ∧
    (place.phone = none → (processEntry web place).phoneNumber = "") ∧
    (place.website = none → (processEntry web place).emailAddress = "") := by
  refine ⟨rfl, rfl, rfl, rfl, ?_, ?_⟩
  · intro h
    simp [processEntry, h]
  · intro h
    simp [processEntry, truthy, h]

/-- Witness for C6: the no-phone, no-website entry yields empty phone and
email fields. -/
theorem C6_entry_mapping_witness :
    (processEntry webNetErr exEntryNoContact).phoneNumber = "" ∧
    (processEntry webNetErr exEntryNoContact).emailAddress = "" :=
  ⟨(C6_entry_mapping webNetErr exEntryNoContact).2.2.2.2.1 rfl,
   (C6_entry_mapping webNetErr exEntryNoContact).2.2.2.2.2 rfl⟩

/-- C7: `extract_email_from_website` returns `None` without raising when the
URL is empty, when the homepage fetch raises a network-level error, and when
the response status is not 200. -/
theorem C7_extract_fails_closed (web : String → WebResp) (url : String) :
    (url = "" → extract_email_from_website web url = none) ∧
    (web url = .netError → extract_email_from_website web url = none) ∧
    (∀ status body, web url = .ok status body → status ≠ 200 →
      extract_email_from_website web url = none) := by
  refine ⟨?_, ?_, ?_⟩
  · intro h
    simp [extract_email_from_website, h]
  · intro h
    by_cases hu : url = ""
    · simp [extract_email_from_website, hu]
    · simp [extract_email_from_website, hu, h]
  · intro status body h hs
    by_cases hu : url = ""
    · simp [extract_email_from_website, hu]
    · simp [extract_email_from_website, hu, h, hs]

/-- Witness for C7: `None` on an empty URL, on a URL whose fetch raises, and
on a URL answered with 404. -/
theorem C7_extract_fails_closed_witness :
    extract_email_from_website webFail "" = none ∧
    extract_email_from_website webFail "https://down.example" = none ∧
    extract_email_from_website webFail "https://up.example" = none :=
  ⟨(C7_extract_fails_closed webFail "").1 rfl,
   (C7_extract_fails_closed webFail "https://down.example").2.1 (by decide),
   (C7_extract_fails_closed webFail "https://up.example").2.2 404 "not found"
     (by decide) (by decide)⟩

/-- C8: the writer is a no-op on an empty record list (no file is created),
and on a non-empty list it writes the fixed five-column header row followed
by one row per record in order. -/
theorem C8_writer_empty_noop :
    save_to_csv [] = none ∧
    ∀ data : List BusinessRecord, data ≠ [] →
      save_to_csv data = some (csvHeader :: data.map csvRow) := by
  refine ⟨rfl, ?_⟩
  intro data h
  cases data with
  | nil => exact absurd rfl h
  | cons a l => rfl

/-- Witness for C8: a one-record list produces the header and one row. -/
theorem C8_writer_empty_noop_witness :
    save_to_csv [exRecord] = some (csvHeader :: [exRecord].map csvRow) :=
  C8_writer_empty_noop.2 [exRecord] (by decide)

/-- C9: the walk is deterministic in its upstream inputs: two runs over
pointwise-equal fetch, website and dump oracles produce identical outputs
(record list and page count). -/
theorem C9_walk_deterministic (apiKey : String)
    (o₁ o₂ : Nat → String → List (String × String) → Option Payload)
    (w₁ w₂ : String → WebResp) (d₁ d₂ : Nat → Bool)
    (ho : ∀ n u p, o₁ n u p = o₂ n u p) (hw : ∀ s, w₁ s = w₂ s)
    (hd : ∀ n, d₁ n = d₂ n) :
    scrape_maps_data apiKey o₁ w₁ d₁ = scrape_maps_data apiKey o₂ w₂ d₂ := by
  have ho₂ : o₁ = o₂ := funext fun n => funext fun u => funext fun p => ho n u p
  have hw₂ : w₁ = w₂ := funext hw
  have hd₂ : d₁ = d₂ := funext hd
  rw [ho₂, hw₂, hd₂]

/-- Witness for C9: feeding the same mocked upstream twice gives the same
output. -/
theorem C9_walk_deterministic_witness :
    scrape_maps_data "key" infFetch webNetErr dumpAll =
      scrape_maps_data "key" infFetch webNetErr dumpAll :=
  C9_walk_deterministic "key" infFetch infFetch webNetErr webNetErr dumpAll
    dumpAll (fun _ _ _ => rfl) (fun _ => rfl) (fun _ => rfl)

/-- C10: in every record returned by a normally completed walk, an empty
`Website` field forces an empty `Email Address` field — email extraction is
attempted only for entries with a truthy website. -/
theorem C10_no_email_without_website (apiKey : String)
    (fetchO : Nat → String → List (String × String) → Option Payload)
    (web : String → WebResp) (dumpOk : Nat → Bool)
    (recs : List BusinessRecord)
    (hok : (scrape_maps_data apiKey fetchO web dumpOk).1 = .ok recs) :
    ∀ r ∈ recs, r.website = "" → r.emailAddress = "" :=
  walkGo_ok_mem fetchO web dumpOk
    (fun r => r.website = "" → r.emailAddress = "")
    (fun place => processEntry_email_empty web place)
    max_pages 0 "https://serpapi.com/search.json" (initialParams apiKey) []
    (fun r hr => absurd hr (List.not_mem_nil r)) recs hok

/-- Witness for C10: in the three-page concrete run every record has an empty
website, hence an empty email. -/
theorem C10_no_email_without_website_witness :
    exRecord.emailAddress = "" :=
  C10_no_email_without_website "key" infFetch webNetErr dumpAll
    [exRecord, exRecord, exRecord] rfl exRecord (by decide) rfl
